import Mathlib

/-! Verification development of the `interactive-test` example: the event
translation layer (`iced_conversion.rs`) and the frame loop driver
(`main.rs`). Platform-side types (winit) and toolkit-side types (iced)
are embedded shallowly; `f64` quantities are modelled as rationals and
`u32` sizes as naturals. -/

namespace Winit

inductive ElementState
  | Pressed
  | Released

inductive MouseButton
  | Left
  | Right
  | Middle
  | Other (n : ℕ)

inductive MouseScrollDelta
  | LineDelta (x y : ℚ)
  | PixelDelta (x y : ℚ)

/-- Winit modifier flags, restricted to the four accessors the conversion
layer reads (`shift()`, `ctrl()`, `alt()`, `logo()`). -/
structure ModifiersState where
  shift : Bool
  ctrl : Bool
  alt : Bool
  logo : Bool

inductive CursorIcon
  | Default
  | Crosshair
  | Hand
  | Arrow
  | Move
  | Text
  | Wait
  | Help
  | Progress
  | NotAllowed
  | ContextMenu
  | Cell
  | VerticalText
  | Alias
  | Copy
  | NoDrop
  | Grab
  | Grabbing
  | AllScroll
  | ZoomIn
  | ZoomOut
  | EResize
  | NResize
  | NeResize
  | NwResize
  | SResize
  | SeResize
  | SwResize
  | WResize
  | EwResize
  | NsResize
  | NeswResize
  | NwseResize
  | ColResize
  | RowResize
inductive VirtualKeyCode
  | Key1
  | Key2
  | Key3
  | Key4
  | Key5
  | Key6
  | Key7
  | Key8
  | Key9
  | Key0
  | A
  | B
  | C
  | D
  | E
  | F
  | G
  | H
  | I
  | J
  | K
  | L
  | M
  | N
  | O
  | P
  | Q
  | R
  | S
  | T
  | U
  | V
  | W
  | X
  | Y
  | Z
  | Escape
  | F1
  | F2
  | F3
  | F4
  | F5
  | F6
  | F7
  | F8
  | F9
  | F10
  | F11
  | F12
  | F13
  | F14
  | F15
  | F16
  | F17
  | F18
  | F19
  | F20
  | F21
  | F22
  | F23
  | F24
  | Snapshot
  | Scroll
  | Pause
  | Insert
  | Home
  | Delete
  | End
  | PageDown
  | PageUp
  | Left
  | Up
  | Right
  | Down
  | Back
  | Return
  | Space
  | Compose
  | Caret
  | Numlock
  | Numpad0
  | Numpad1
  | Numpad2
  | Numpad3
  | Numpad4
  | Numpad5
  | Numpad6
  | Numpad7
  | Numpad8
  | Numpad9
  | AbntC1
  | AbntC2
  | NumpadAdd
  | Apostrophe
  | Apps
  | At
  | Ax
  | Backslash
  | Calculator
  | Capital
  | Colon
  | Comma
  | Convert
  | NumpadDecimal
  | NumpadDivide
  | Equals
  | Grave
  | Kana
  | Kanji
  | LAlt
  | LBracket
  | LControl
  | LShift
  | LWin
  | Mail
  | MediaSelect
  | MediaStop
  | Minus
  | NumpadMultiply
  | Mute
  | MyComputer
  | NavigateForward
  | NavigateBackward
  | NextTrack
  | NoConvert
  | NumpadComma
  | NumpadEnter
  | NumpadEquals
  | OEM102
  | Period
  | PlayPause
  | Power
  | PrevTrack
  | RAlt
  | RBracket
  | RControl
  | RShift
  | RWin
  | Semicolon
  | Slash
  | Sleep
  | Stop
  | NumpadSubtract
  | Sysrq
  | Tab
  | Underline
  | Unlabeled
  | VolumeDown
  | VolumeUp
  | Wake
  | WebBack
  | WebFavorites
  | WebForward
  | WebHome
  | WebRefresh
  | WebSearch
  | WebStop
  | Yen
  | Copy
  | Paste
  | Cut
  | Asterisk
  | Plus

/-- Platform window events, mirroring the `winit::event::WindowEvent`
variants matched in `iced_conversion.rs` and `main.rs`; the remaining
variants (which all hit the catch-all arms) are represented by the
constructors after `ScaleFactorChanged`.  `KeyboardInput` keeps the
`virtual_keycode : Option<VirtualKeyCode>` and `state` fields read by the
conversion (the scancode is never read). `ScaleFactorChanged` carries the
new scale factor and the new inner size (physical, `u32`). -/
inductive WindowEvent
  | Resized (size : ℕ × ℕ)
  | CloseRequested
  | DroppedFile (path : String)
  | HoveredFile (path : String)
  | HoveredFileCancelled
  | ReceivedCharacter (c : Char)
  | KeyboardInput (virtualKeycode : Option VirtualKeyCode) (state : ElementState)
  | ModifiersChanged (m : ModifiersState)
  | CursorMoved (position : ℚ × ℚ)
  | CursorEntered
  | CursorLeft
  | MouseWheel (delta : MouseScrollDelta)
  | MouseInput (state : ElementState) (button : MouseButton)
  | ScaleFactorChanged (scaleFactor : ℚ) (newInnerSize : ℕ × ℕ)
  | Moved (position : ℤ × ℤ)
  | Destroyed
  | Focused (b : Bool)

/-- Modelled from the spec: winit's `to_logical` conversion
(`toLogicalPosition(physicalPosition, scaleFactor)`) "divides each
coordinate by scaleFactor"; the winit `dpi` module itself is not under
`src/`. -/
def toLogical (p : ℚ × ℚ) (scaleFactor : ℚ) : ℚ × ℚ :=
  (p.1 / scaleFactor, p.2 / scaleFactor)

/-- Modelled from the spec: `to_logical` on a physical (`u32`) size,
"logical size = physical size / scale factor". -/
def toLogicalSize (s : ℕ × ℕ) (scaleFactor : ℚ) : ℚ × ℚ :=
  ((s.1 : ℚ) / scaleFactor, (s.2 : ℚ) / scaleFactor)

end Winit

namespace Iced

/-- Iced modifiers state (`keyboard::ModifiersState`). -/
structure ModifiersState where
  shift : Bool
  control : Bool
  alt : Bool
  logo : Bool

inductive Button
  | Left
  | Right
  | Middle
  | Other (n : ℕ)

inductive ScrollDelta
  | Lines (x y : ℚ)
  | Pixels (x y : ℚ)

inductive KeyCode
  | Key1
  | Key2
  | Key3
  | Key4
  | Key5
  | Key6
  | Key7
  | Key8
  | Key9
  | Key0
  | A
  | B
  | C
  | D
  | E
  | F
  | G
  | H
  | I
  | J
  | K
  | L
  | M
  | N
  | O
  | P
  | Q
  | R
  | S
  | T
  | U
  | V
  | W
  | X
  | Y
  | Z
  | Escape
  | F1
  | F2
  | F3
  | F4
  | F5
  | F6
  | F7
  | F8
  | F9
  | F10
  | F11
  | F12
  | F13
  | F14
  | F15
  | F16
  | F17
  | F18
  | F19
  | F20
  | F21
  | F22
  | F23
  | F24
  | Snapshot
  | Scroll
  | Pause
  | Insert
  | Home
  | Delete
  | End
  | PageDown
  | PageUp
  | Left
  | Up
  | Right
  | Down
  | Backspace
  | Enter
  | Space
  | Compose
  | Caret
  | Numlock
  | Numpad0
  | Numpad1
  | Numpad2
  | Numpad3
  | Numpad4
  | Numpad5
  | Numpad6
  | Numpad7
  | Numpad8
  | Numpad9
  | AbntC1
  | AbntC2
  | NumpadAdd
  | Apostrophe
  | Apps
  | At
  | Ax
  | Backslash
  | Calculator
  | Capital
  | Colon
  | Comma
  | Convert
  | NumpadDecimal
  | NumpadDivide
  | Equals
  | Grave
  | Kana
  | Kanji
  | LAlt
  | LBracket
  | LControl
  | LShift
  | LWin
  | Mail
  | MediaSelect
  | MediaStop
  | Minus
  | NumpadMultiply
  | Mute
  | MyComputer
  | NavigateForward
  | NavigateBackward
  | NextTrack
  | NoConvert
  | NumpadComma
  | NumpadEnter
  | NumpadEquals
  | OEM102
  | Period
  | PlayPause
  | Power
  | PrevTrack
  | RAlt
  | RBracket
  | RControl
  | RShift
  | RWin
  | Semicolon
  | Slash
  | Sleep
  | Stop
  | NumpadSubtract
  | Sysrq
  | Tab
  | Underline
  | Unlabeled
  | VolumeDown
  | VolumeUp
  | Wake
  | WebBack
  | WebFavorites
  | WebForward
  | WebHome
  | WebRefresh
  | WebSearch
  | WebStop
  | Yen
  | Copy
  | Paste
  | Cut

inductive MouseEvent
  | CursorMoved (x y : ℚ)
  | ButtonPressed (b : Button)
  | ButtonReleased (b : Button)
  | WheelScrolled (delta : ScrollDelta)

inductive KeyboardEvent
  | CharacterReceived (c : Char)
  | KeyPressed (keyCode : KeyCode) (modifiers : ModifiersState)
  | KeyReleased (keyCode : KeyCode) (modifiers : ModifiersState)
  | ModifiersChanged (m : ModifiersState)

inductive WindowEvent
  | Resized (width height : ℚ)
  | FileHovered (path : String)
  | FileDropped (path : String)
  | FilesHoveredLeft

inductive Event
  | Window (e : WindowEvent)
  | Mouse (e : MouseEvent)
  | Keyboard (e : KeyboardEvent)

/-- Iced `mouse::Interaction` hints (9 variants). -/
inductive Interaction
  | Idle
  | Pointer
  | Working
  | Grab
  | Grabbing
  | Crosshair
  | Text
  | ResizingHorizontally
  | ResizingVertically
  deriving DecidableEq

end Iced

/-- Converts a `MouseButton` from winit to an iced mouse button. -/
def mouse_button : Winit.MouseButton → Iced.Button
  | .Left => .Left
  | .Right => .Right
  | .Middle => .Middle
  | .Other n => .Other n

/-- Converts a `ModifiersState` from winit to an iced modifiers state. -/
def modifiers_state (modifiers : Winit.ModifiersState) : Iced.ModifiersState :=
  { shift := modifiers.shift
    control := modifiers.ctrl
    alt := modifiers.alt
    logo := modifiers.logo }

/-- Converts a physical cursor position to a logical `Point`. -/
def cursor_position (position : ℚ × ℚ) (scale_factor : ℚ) : ℚ × ℚ :=
  Winit.toLogical position scale_factor

/-- Converts a `VirtualKeyCode` from winit to an iced key code; exactly
`Asterisk` and `Plus` are unmapped. -/
def key_code : Winit.VirtualKeyCode → Option Iced.KeyCode
  | .Key1 => some .Key1
  | .Key2 => some .Key2
  | .Key3 => some .Key3
  | .Key4 => some .Key4
  | .Key5 => some .Key5
  | .Key6 => some .Key6
  | .Key7 => some .Key7
  | .Key8 => some .Key8
  | .Key9 => some .Key9
  | .Key0 => some .Key0
  | .A => some .A
  | .B => some .B
  | .C => some .C
  | .D => some .D
  | .E => some .E
  | .F => some .F
  | .G => some .G
  | .H => some .H
  | .I => some .I
  | .J => some .J
  | .K => some .K
  | .L => some .L
  | .M => some .M
  | .N => some .N
  | .O => some .O
  | .P => some .P
  | .Q => some .Q
  | .R => some .R
  | .S => some .S
  | .T => some .T
  | .U => some .U
  | .V => some .V
  | .W => some .W
  | .X => some .X
  | .Y => some .Y
  | .Z => some .Z
  | .Escape => some .Escape
  | .F1 => some .F1
  | .F2 => some .F2
  | .F3 => some .F3
  | .F4 => some .F4
  | .F5 => some .F5
  | .F6 => some .F6
  | .F7 => some .F7
  | .F8 => some .F8
  | .F9 => some .F9
  | .F10 => some .F10
  | .F11 => some .F11
  | .F12 => some .F12
  | .F13 => some .F13
  | .F14 => some .F14
  | .F15 => some .F15
  | .F16 => some .F16
  | .F17 => some .F17
  | .F18 => some .F18
  | .F19 => some .F19
  | .F20 => some .F20
  | .F21 => some .F21
  | .F22 => some .F22
  | .F23 => some .F23
  | .F24 => some .F24
  | .Snapshot => some .Snapshot
  | .Scroll => some .Scroll
  | .Pause => some .Pause
  | .Insert => some .Insert
  | .Home => some .Home
  | .Delete => some .Delete
  | .End => some .End
  | .PageDown => some .PageDown
  | .PageUp => some .PageUp
  | .Left => some .Left
  | .Up => some .Up
  | .Right => some .Right
  | .Down => some .Down
  | .Back => some .Backspace
  | .Return => some .Enter
  | .Space => some .Space
  | .Compose => some .Compose
  | .Caret => some .Caret
  | .Numlock => some .Numlock
  | .Numpad0 => some .Numpad0
  | .Numpad1 => some .Numpad1
  | .Numpad2 => some .Numpad2
  | .Numpad3 => some .Numpad3
  | .Numpad4 => some .Numpad4
  | .Numpad5 => some .Numpad5
  | .Numpad6 => some .Numpad6
  | .Numpad7 => some .Numpad7
  | .Numpad8 => some .Numpad8
  | .Numpad9 => some .Numpad9
  | .AbntC1 => some .AbntC1
  | .AbntC2 => some .AbntC2
  | .NumpadAdd => some .NumpadAdd
  | .Apostrophe => some .Apostrophe
  | .Apps => some .Apps
  | .At => some .At
  | .Ax => some .Ax
  | .Backslash => some .Backslash
  | .Calculator => some .Calculator
  | .Capital => some .Capital
  | .Colon => some .Colon
  | .Comma => some .Comma
  | .Convert => some .Convert
  | .NumpadDecimal => some .NumpadDecimal
  | .NumpadDivide => some .NumpadDivide
  | .Equals => some .Equals
  | .Grave => some .Grave
  | .Kana => some .Kana
  | .Kanji => some .Kanji
  | .LAlt => some .LAlt
  | .LBracket => some .LBracket
  | .LControl => some .LControl
  | .LShift => some .LShift
  | .LWin => some .LWin
  | .Mail => some .Mail
  | .MediaSelect => some .MediaSelect
  | .MediaStop => some .MediaStop
  | .Minus => some .Minus
  | .NumpadMultiply => some .NumpadMultiply
  | .Mute => some .Mute
  | .MyComputer => some .MyComputer
  | .NavigateForward => some .NavigateForward
  | .NavigateBackward => some .NavigateBackward
  | .NextTrack => some .NextTrack
  | .NoConvert => some .NoConvert
  | .NumpadComma => some .NumpadComma
  | .NumpadEnter => some .NumpadEnter
  | .NumpadEquals => some .NumpadEquals
  | .OEM102 => some .OEM102
  | .Period => some .Period
  | .PlayPause => some .PlayPause
  | .Power => some .Power
  | .PrevTrack => some .PrevTrack
  | .RAlt => some .RAlt
  | .RBracket => some .RBracket
  | .RControl => some .RControl
  | .RShift => some .RShift
  | .RWin => some .RWin
  | .Semicolon => some .Semicolon
  | .Slash => some .Slash
  | .Sleep => some .Sleep
  | .Stop => some .Stop
  | .NumpadSubtract => some .NumpadSubtract
  | .Sysrq => some .Sysrq
  | .Tab => some .Tab
  | .Underline => some .Underline
  | .Unlabeled => some .Unlabeled
  | .VolumeDown => some .VolumeDown
  | .VolumeUp => some .VolumeUp
  | .Wake => some .Wake
  | .WebBack => some .WebBack
  | .WebFavorites => some .WebFavorites
  | .WebForward => some .WebForward
  | .WebHome => some .WebHome
  | .WebRefresh => some .WebRefresh
  | .WebSearch => some .WebSearch
  | .WebStop => some .WebStop
  | .Yen => some .Yen
  | .Copy => some .Copy
  | .Paste => some .Paste
  | .Cut => some .Cut
  | .Asterisk => none
  | .Plus => none

/-- Tells whether a character belongs to one of the three Unicode
private-use ranges, as in `is_private_use_character`. -/
def is_private_use_character (c : Char) : Bool :=
  decide ((0xE000 ≤ c.toNat ∧ c.toNat ≤ 0xF8FF) ∨
    (0xF0000 ≤ c.toNat ∧ c.toNat ≤ 0xFFFFD) ∨
    (0x100000 ≤ c.toNat ∧ c.toNat ≤ 0x10FFFD))

/-- Converts a winit window event into an iced event, with the current
scale factor and modifiers, mirroring `window_event` in
`iced_conversion.rs` arm by arm (the final wildcard covers the variants
the source drops). -/
def window_event (event : Winit.WindowEvent) (scale_factor : ℚ)
    (modifiers : Winit.ModifiersState) : Option Iced.Event :=
  match event with
  | .Resized new_size =>
    let logical_size := Winit.toLogicalSize new_size scale_factor
    some (.Window (.Resized logical_size.1 logical_size.2))
  | .ScaleFactorChanged _ new_inner_size =>
    let logical_size := Winit.toLogicalSize new_inner_size scale_factor
    some (.Window (.Resized logical_size.1 logical_size.2))
  | .CursorMoved position =>
    let position := Winit.toLogical position scale_factor
    some (.Mouse (.CursorMoved position.1 position.2))
  | .MouseInput state button =>
    let button := mouse_button button
    some (.Mouse (match state with
      | .Pressed => .ButtonPressed button
      | .Released => .ButtonReleased button))
  | .MouseWheel delta =>
    match delta with
    | .LineDelta delta_x delta_y =>
      some (.Mouse (.WheelScrolled (.Lines delta_x delta_y)))
    | .PixelDelta x y =>
      some (.Mouse (.WheelScrolled (.Pixels x y)))
  | .ReceivedCharacter c =>
    if is_private_use_character c then none
    else some (.Keyboard (.CharacterReceived c))
  | .KeyboardInput (some virtual_keycode) state =>
    match key_code virtual_keycode with
    | some kc =>
      some (.Keyboard (match state with
        | .Pressed => .KeyPressed kc (modifiers_state modifiers)
        | .Released => .KeyReleased kc (modifiers_state modifiers)))
    | none => none
  | .ModifiersChanged new_modifiers =>
    some (.Keyboard (.ModifiersChanged (modifiers_state new_modifiers)))
  | .HoveredFile path => some (.Window (.FileHovered path))
  | .DroppedFile path => some (.Window (.FileDropped path))
  | .HoveredFileCancelled => some (.Window .FilesHoveredLeft)
  | _ => none

/-- Maps an iced `mouse::Interaction` hint to a winit cursor icon. -/
def mouse_interaction : Iced.Interaction → Winit.CursorIcon
  | .Idle => .Default
  | .Pointer => .Hand
  | .Working => .Progress
  | .Grab => .Grab
  | .Grabbing => .Grabbing
  | .Crosshair => .Crosshair
  | .Text => .Text
  | .ResizingHorizontally => .EwResize
  | .ResizingVertically => .NsResize

/-- Modelled from the spec: the iced `Viewport` ("holds physical size and
scale factor; derives logical size"); `iced_raqote` is not under `src/`. -/
structure Viewport where
  physicalSize : ℕ × ℕ
  scaleFactor : ℚ

def Viewport.with_physical_size (size : ℕ × ℕ) (scaleFactor : ℚ) : Viewport :=
  { physicalSize := size, scaleFactor := scaleFactor }

/-- Modelled from the spec: "logical size = physical size / scale factor". -/
def Viewport.logical_size (v : Viewport) : ℚ × ℚ :=
  Winit.toLogicalSize v.physicalSize v.scaleFactor

inductive ControlFlow
  | Wait
  | Exit

/-- The frame loop's mutable state, as held by the closure in `main.rs`:
viewport, last inner size, physical cursor position, modifiers, the
buffer-dirty flag `resized`, and the backing-buffer allocation size.  The
`queue` field is modelled from the spec: the iced `program::State`
("accumulates translated events" in a FIFO queue, exposes
`is_queue_empty`, and `update` drains the whole queue in order) is not
under `src/`. -/
structure LoopState where
  viewport : Viewport
  size : ℕ × ℕ
  cursorPosition : ℚ × ℚ
  modifiers : Winit.ModifiersState
  resized : Bool
  queue : List Iced.Event
  pixbufSize : ℕ × ℕ
  control : ControlFlow

/-- The initial loop state built in `main` before `event_loop.run`:
cursor at the sentinel `(-1.0, -1.0)`, default (all-false) modifiers,
dirty flag clear, empty queue, buffers sized to the window. -/
def initialState (size : ℕ × ℕ) (sf : ℚ) : LoopState :=
  { viewport := Viewport.with_physical_size size sf
    size := size
    cursorPosition := (-1, -1)
    modifiers := ⟨false, false, false, false⟩
    resized := false
    queue := []
    pixbufSize := size
    control := .Wait }

/-- The logical cursor position passed to `State::new` in `main`. -/
def initialCursor (size : ℕ × ℕ) (sf : ℚ) : ℚ × ℚ :=
  cursor_position (initialState size sf).cursorPosition
    (initialState size sf).viewport.scaleFactor

/-- First half of the `WindowEvent` intake arm in `main.rs`: the inner
`match event` that updates the tracked input state (cursor position,
modifiers, viewport/size/dirty flag, control flow) before translation.
`sf` is the result of querying `window.scale_factor()`. -/
def trackInput (sf : ℚ) (s : LoopState) : Winit.WindowEvent → LoopState
  | .CursorMoved position => { s with cursorPosition := position }
  | .ModifiersChanged new_modifiers => { s with modifiers := new_modifiers }
  | .Resized new_size =>
    { s with viewport := Viewport.with_physical_size new_size sf
             size := new_size
             resized := true }
  | .CloseRequested => { s with control := .Exit }
  | _ => s

/-- Second half of the `WindowEvent` intake arm: translate the event with
the (already updated) modifiers and, if it yields an iced event, enqueue
it (`state.queue_event`). -/
def enqueueTranslated (sf : ℚ) (e : Winit.WindowEvent) (s : LoopState) : LoopState :=
  match window_event e sf s.modifiers with
  | some ev => { s with queue := s.queue ++ [ev] }
  | none => s

/-- One platform event through the intake phase. -/
def intakeState (sf : ℚ) (s : LoopState) (e : Winit.WindowEvent) : LoopState :=
  enqueueTranslated sf e (trackInput sf s e)

/-- A whole batch of platform events through the intake phase, in order. -/
def intakeAll (sf : ℚ) (s : LoopState) (events : List Winit.WindowEvent) : LoopState :=
  events.foldl (intakeState sf) s

/-- The top-level winit events the loop closure distinguishes. -/
inductive MainEvent
  | WindowEvent (e : Winit.WindowEvent)
  | MainEventsCleared
  | RedrawRequested

/-- Observable actions of one loop iteration: a (batched) call to the
application state's `update` with the drained events, the logical
viewport size and the logical cursor position; a `request_redraw`; a
reallocation of the backing pixel buffer and draw target. -/
inductive Effect
  | updateCalled (events : List Iced.Event) (logicalSize : ℚ × ℚ) (cursor : ℚ × ℚ)
  | redrawRequested
  | buffersReallocated (size : ℕ × ℕ)

def Effect.isRealloc : Effect → Bool
  | .buffersReallocated _ => true
  | _ => false

/-- One iteration of the `event_loop.run` closure in `main.rs`, returning
the new state and the observable effects.  The `MainEventsCleared` arm's
`state.update` call is modelled from the spec (it drains the whole FIFO
queue through the application's update function, once per call). -/
def loopStep (sf : ℚ) (s : LoopState) : MainEvent → LoopState × List Effect
  | .WindowEvent e => (intakeState sf s e, [])
  | .MainEventsCleared =>
    if s.queue.isEmpty then (s, [])
    else
      ({ s with queue := [] },
        [.updateCalled s.queue s.viewport.logical_size
          (cursor_position s.cursorPosition s.viewport.scaleFactor),
          .redrawRequested])
  | .RedrawRequested =>
    if s.resized then
      ({ s with pixbufSize := s.size, resized := false },
        [.buffersReallocated s.size])
    else (s, [])

/-- A sequence of loop iterations, accumulating effects in order. -/
def loopRun (sf : ℚ) (s : LoopState) : List MainEvent → LoopState × List Effect
  | [] => (s, [])
  | e :: es =>
    let r := loopStep sf s e
    let r2 := loopRun sf r.1 es
    (r2.1, r.2 ++ r2.2)

/-- The modifiers tracked after one intake step: only a `ModifiersChanged`
event rewrites them. -/
def newMods (e : Winit.WindowEvent) (m : Winit.ModifiersState) : Winit.ModifiersState :=
  match e with
  | .ModifiersChanged m2 => m2
  | _ => m

/-- The translated events a batch contributes to the queue, in arrival
order, threading the modifiers updates through the batch as the intake
phase does. -/
def batchTranslate (sf : ℚ) (m : Winit.ModifiersState) :
    List Winit.WindowEvent → List Iced.Event
  | [] => []
  | e :: es =>
    (window_event e sf (newMods e m)).toList ++ batchTranslate sf (newMods e m) es

/-! Shared lemmas about the intake phase and the loop driver. -/

theorem enqueueTranslated_eq (sf : ℚ) (e : Winit.WindowEvent) (s : LoopState) :
    enqueueTranslated sf e s =
      { s with queue := s.queue ++ (window_event e sf s.modifiers).toList } := by
  unfold enqueueTranslated
  cases h : window_event e sf s.modifiers <;> simp

theorem trackInput_queue (sf : ℚ) (s : LoopState) (e : Winit.WindowEvent) :
    (trackInput sf s e).queue = s.queue := by
  cases e <;> rfl

theorem trackInput_modifiers (sf : ℚ) (s : LoopState) (e : Winit.WindowEvent) :
    (trackInput sf s e).modifiers = newMods e s.modifiers := by
  cases e <;> rfl

theorem trackInput_pixbufSize (sf : ℚ) (s : LoopState) (e : Winit.WindowEvent) :
    (trackInput sf s e).pixbufSize = s.pixbufSize := by
  cases e <;> rfl

theorem trackInput_resized (sf : ℚ) (s : LoopState) (e : Winit.WindowEvent) :
    (trackInput sf s e).resized =
      (match e with | .Resized _ => true | _ => s.resized) := by
  cases e <;> rfl

theorem trackInput_cursorPosition (sf : ℚ) (s : LoopState) (e : Winit.WindowEvent)
    (h : ∀ p, e ≠ Winit.WindowEvent.CursorMoved p) :
    (trackInput sf s e).cursorPosition = s.cursorPosition := by
  cases e with
  | CursorMoved p => exact absurd rfl (h p)
  | _ => rfl

theorem intakeState_queue (sf : ℚ) (s : LoopState) (e : Winit.WindowEvent) :
    (intakeState sf s e).queue =
      s.queue ++ (window_event e sf (newMods e s.modifiers)).toList := by
  rw [intakeState, enqueueTranslated_eq]
  simp [trackInput_queue, trackInput_modifiers]

theorem intakeState_modifiers (sf : ℚ) (s : LoopState) (e : Winit.WindowEvent) :
    (intakeState sf s e).modifiers = newMods e s.modifiers := by
  rw [intakeState, enqueueTranslated_eq]
  simp [trackInput_modifiers]

theorem intakeState_pixbufSize (sf : ℚ) (s : LoopState) (e : Winit.WindowEvent) :
    (intakeState sf s e).pixbufSize = s.pixbufSize := by
  rw [intakeState, enqueueTranslated_eq]
  simp [trackInput_pixbufSize]

theorem intakeState_resized (sf : ℚ) (s : LoopState) (e : Winit.WindowEvent) :
    (intakeState sf s e).resized =
      (match e with | .Resized _ => true | _ => s.resized) := by
  rw [intakeState, enqueueTranslated_eq]
  simp [trackInput_resized]

theorem intakeState_cursorPosition (sf : ℚ) (s : LoopState) (e : Winit.WindowEvent)
    (h : ∀ p, e ≠ Winit.WindowEvent.CursorMoved p) :
    (intakeState sf s e).cursorPosition = s.cursorPosition := by
  rw [intakeState, enqueueTranslated_eq]
  simp [trackInput_cursorPosition sf s e h]

theorem intakeAll_nil (sf : ℚ) (s : LoopState) : intakeAll sf s [] = s := rfl

theorem intakeAll_cons (sf : ℚ) (s : LoopState) (e : Winit.WindowEvent)
    (es : List Winit.WindowEvent) :
    intakeAll sf s (e :: es) = intakeAll sf (intakeState sf s e) es := rfl

theorem intakeAll_queue (sf : ℚ) (events : List Winit.WindowEvent) :
    ∀ s : LoopState,
      (intakeAll sf s events).queue = s.queue ++ batchTranslate sf s.modifiers events := by
  induction events with
  | nil => intro s; simp [intakeAll_nil, batchTranslate]
  | cons e es ih =>
    intro s
    rw [intakeAll_cons, ih, batchTranslate, intakeState_queue, intakeState_modifiers,
      List.append_assoc]

theorem intakeAll_pixbufSize (sf : ℚ) (events : List Winit.WindowEvent) :
    ∀ s : LoopState, (intakeAll sf s events).pixbufSize = s.pixbufSize := by
  induction events with
  | nil => intro s; rfl
  | cons e es ih => intro s; rw [intakeAll_cons, ih, intakeState_pixbufSize]

theorem intakeAll_resized_mono (sf : ℚ) (events : List Winit.WindowEvent) :
    ∀ s : LoopState, s.resized = true → (intakeAll sf s events).resized = true := by
  induction events with
  | nil => intro s h; exact h
  | cons e es ih =>
    intro s h
    rw [intakeAll_cons]
    refine ih _ ?_
    rw [intakeState_resized]
    cases e <;> simp [h]

theorem intakeAll_resized_of_mem (sf : ℚ) (events : List Winit.WindowEvent)
    (ns : ℕ × ℕ) :
    ∀ s : LoopState, Winit.WindowEvent.Resized ns ∈ events →
      (intakeAll sf s events).resized = true := by
  induction events with
  | nil => intro s h; simp at h
  | cons e es ih =>
    intro s h
    rw [intakeAll_cons]
    rcases List.mem_cons.mp h with h1 | h2
    · refine intakeAll_resized_mono sf es _ ?_
      rw [← h1, intakeState_resized]
    · exact ih _ h2

theorem intakeAll_cursorPosition (sf : ℚ) (events : List Winit.WindowEvent) :
    ∀ s : LoopState, (∀ p, Winit.WindowEvent.CursorMoved p ∉ events) →
      (intakeAll sf s events).cursorPosition = s.cursorPosition := by
  induction events with
  | nil => intro s _; rfl
  | cons e es ih =>
    intro s h
    rw [intakeAll_cons]
    rw [ih _ fun p hp => h p (List.mem_cons_of_mem e hp)]
    refine intakeState_cursorPosition sf s e fun p hp => ?_
    exact h p (hp ▸ List.mem_cons_self e es)

theorem loopRun_nil (sf : ℚ) (s : LoopState) : loopRun sf s [] = (s, []) := rfl

theorem loopRun_cons (sf : ℚ) (s : LoopState) (e : MainEvent) (es : List MainEvent) :
    loopRun sf s (e :: es) =
      ((loopRun sf (loopStep sf s e).1 es).1,
        (loopStep sf s e).2 ++ (loopRun sf (loopStep sf s e).1 es).2) := rfl

theorem loopRun_singleton (sf : ℚ) (s : LoopState) (e : MainEvent) :
    loopRun sf s [e] = loopStep sf s e := by
  rw [loopRun_cons, loopRun_nil, List.append_nil]

theorem loopRun_windowEvents (sf : ℚ) (events : List Winit.WindowEvent) :
    ∀ s : LoopState,
      loopRun sf s (events.map MainEvent.WindowEvent) = (intakeAll sf s events, []) := by
  induction events with
  | nil => intro s; rfl
  | cons e es ih =>
    intro s
    rw [List.map_cons, loopRun_cons, ih]
    rfl

theorem loopRun_append (sf : ℚ) (l1 l2 : List MainEvent) :
    ∀ s : LoopState,
      loopRun sf s (l1 ++ l2) =
        ((loopRun sf (loopRun sf s l1).1 l2).1,
          (loopRun sf s l1).2 ++ (loopRun sf (loopRun sf s l1).1 l2).2) := by
  induction l1 with
  | nil => intro s; rw [List.nil_append, loopRun_nil]; rfl
  | cons e es ih =>
    intro s
    rw [List.cons_append, loopRun_cons, ih, loopRun_cons, List.append_assoc]

theorem batchTranslate_length (sf : ℚ) (events : List Winit.WindowEvent) :
    ∀ m : Winit.ModifiersState, (batchTranslate sf m events).length ≤ events.length := by
  induction events with
  | nil => intro m; simp [batchTranslate]
  | cons e es ih =>
    intro m
    rw [batchTranslate]
    have h1 : (window_event e sf (newMods e m)).toList.length ≤ 1 := by
      cases window_event e sf (newMods e m) <;> simp
    have h2 := ih (newMods e m)
    simp only [List.length_append, List.length_cons]
    omega

/-! Claim theorems. -/

set_option maxHeartbeats 2000000 in
/-- C1: for every platform key press/release whose virtual-key identity
maps under `key_code`, `window_event` returns the corresponding
`KeyPressed`/`KeyReleased` iced event carrying that key code and the
current modifiers; `key_code` returns `none` for exactly the `Asterisk`
and `Plus` identities, and for those `window_event` returns `none`. -/
theorem keyboard_translation (sf : ℚ) (m : Winit.ModifiersState)
    (v : Winit.VirtualKeyCode) (st : Winit.ElementState) :
    (∀ k, key_code v = some k →
      window_event (.KeyboardInput (some v) st) sf m =
        some (.Keyboard (match st with
          | .Pressed => .KeyPressed k (modifiers_state m)
          | .Released => .KeyReleased k (modifiers_state m)))) ∧
    (key_code v = none →
      window_event (.KeyboardInput (some v) st) sf m = none) ∧
    (key_code v = none ↔ v = .Asterisk ∨ v = .Plus) := by
  refine ⟨?_, ?_, ?_⟩
  · intro k hk
    cases st <;> simp [window_event, hk]
  · intro hk
    cases st <;> simp [window_event, hk]
  · cases v <;> simp [key_code]

theorem keyboard_translation_witness :
    window_event (.KeyboardInput (some .A) .Pressed) 1 ⟨false, false, false, false⟩ =
      some (.Keyboard (.KeyPressed .A (modifiers_state ⟨false, false, false, false⟩))) ∧
    window_event (.KeyboardInput (some .Asterisk) .Released) 1 ⟨false, false, false, false⟩ =
      none :=
  ⟨(keyboard_translation 1 ⟨false, false, false, false⟩ .A .Pressed).1 .A rfl,
    (keyboard_translation 1 ⟨false, false, false, false⟩ .Asterisk .Released).2.1 rfl⟩

/-- C2: `window_event` suppresses `ReceivedCharacter` events whose
character lies in one of the three private-use ranges
U+E000..U+F8FF, U+F0000..U+FFFFD, U+100000..U+10FFFD, and forwards any
other character as `CharacterReceived`. -/
theorem private_use_suppression (sf : ℚ) (m : Winit.ModifiersState) (c : Char) :
    ((0xE000 ≤ c.toNat ∧ c.toNat ≤ 0xF8FF) ∨
      (0xF0000 ≤ c.toNat ∧ c.toNat ≤ 0xFFFFD) ∨
      (0x100000 ≤ c.toNat ∧ c.toNat ≤ 0x10FFFD) →
      window_event (.ReceivedCharacter c) sf m = none) ∧
    (¬((0xE000 ≤ c.toNat ∧ c.toNat ≤ 0xF8FF) ∨
        (0xF0000 ≤ c.toNat ∧ c.toNat ≤ 0xFFFFD) ∨
        (0x100000 ≤ c.toNat ∧ c.toNat ≤ 0x10FFFD)) →
      window_event (.ReceivedCharacter c) sf m =
        some (.Keyboard (.CharacterReceived c))) := by
  constructor <;> intro h <;> simp [window_event, is_private_use_character, h]

theorem private_use_suppression_witness :
    window_event (.ReceivedCharacter (Char.ofNat 0xE000)) 1 ⟨false, false, false, false⟩ =
      none ∧
    window_event (.ReceivedCharacter (Char.ofNat 0xF0000)) 1 ⟨false, false, false, false⟩ =
      none ∧
    window_event (.ReceivedCharacter 'A') 1 ⟨false, false, false, false⟩ =
      some (.Keyboard (.CharacterReceived 'A')) :=
  ⟨(private_use_suppression 1 ⟨false, false, false, false⟩ (Char.ofNat 0xE000)).1
      (by decide),
    (private_use_suppression 1 ⟨false, false, false, false⟩ (Char.ofNat 0xF0000)).1
      (by decide),
    (private_use_suppression 1 ⟨false, false, false, false⟩ 'A').2 (by decide)⟩

/-- C3: `Resized` and `ScaleFactorChanged` both translate to a
`Window.Resized` with the physical size divided by the scale factor, and
`CursorMoved` translates with each coordinate divided by the scale
factor; concretely (800,600) at factor 2 gives (400,300) and (100,50) at
factor 2 gives (50,25). -/
theorem logical_conversion (sf sf2 : ℚ) (m : Winit.ModifiersState) (w h : ℕ)
    (x y : ℚ) :
    window_event (.Resized (w, h)) sf m =
      some (.Window (.Resized ((w : ℚ) / sf) ((h : ℚ) / sf))) ∧
    window_event (.ScaleFactorChanged sf2 (w, h)) sf m =
      some (.Window (.Resized ((w : ℚ) / sf) ((h : ℚ) / sf))) ∧
    window_event (.CursorMoved (x, y)) sf m =
      some (.Mouse (.CursorMoved (x / sf) (y / sf))) ∧
    window_event (.Resized (800, 600)) 2 m = some (.Window (.Resized 400 300)) ∧
    window_event (.CursorMoved (100, 50)) 2 m =
      some (.Mouse (.CursorMoved 50 25)) := by
  refine ⟨rfl, rfl, rfl, ?_, ?_⟩ <;>
    simp [window_event, Winit.toLogicalSize, Winit.toLogical] <;> norm_num

/-- C8: wheel scrolling passes line deltas through as `Lines` and pixel
deltas through as `Pixels`, never dividing by the scale factor; in
particular a (100,50) pixel delta at scale factor 2 stays (100,50). -/
theorem wheel_delta_passthrough (sf : ℚ) (m : Winit.ModifiersState) (x y : ℚ) :
    window_event (.MouseWheel (.LineDelta x y)) sf m =
      some (.Mouse (.WheelScrolled (.Lines x y))) ∧
    window_event (.MouseWheel (.PixelDelta x y)) sf m =
      some (.Mouse (.WheelScrolled (.Pixels x y))) ∧
    window_event (.MouseWheel (.PixelDelta 100 50)) 2 m =
      some (.Mouse (.WheelScrolled (.Pixels 100 50))) :=
  ⟨rfl, rfl, rfl⟩

/-- C9: the interaction-hint-to-cursor-shape mapping is a total Lean
function over the 9 `Interaction` variants and is injective: distinct
hints are mapped to distinct cursor icons. -/
theorem mouse_interaction_injective (a b : Iced.Interaction) (h : a ≠ b) :
    mouse_interaction a ≠ mouse_interaction b := by
  cases a <;> cases b <;> first
    | exact absurd rfl h
    | simp [mouse_interaction]

theorem mouse_interaction_injective_witness :
    mouse_interaction .Idle ≠ mouse_interaction .Pointer :=
  mouse_interaction_injective Iced.Interaction.Idle Iced.Interaction.Pointer (by decide)

/-- C4 counterexample: a `ScaleFactorChanged` event processed by the
intake phase does not replace the viewport.  Starting from a viewport
with scale factor 1, after a scale-factor-change to 2 (with the window
now reporting scale factor 2) the tracked viewport still has scale
factor 1 and was not recomputed. -/
theorem scale_factor_viewport_cex :
    (intakeState 2 (initialState (800, 600) 1)
        (.ScaleFactorChanged 2 (800, 600))).viewport.scaleFactor = 1 ∧
    (intakeState 2 (initialState (800, 600) 1)
        (.ScaleFactorChanged 2 (800, 600))).viewport.scaleFactor ≠ 2 := by
  constructor
  · rfl
  · intro h
    rw [show (intakeState 2 (initialState (800, 600) 1)
        (.ScaleFactorChanged 2 (800, 600))).viewport.scaleFactor = 1 from rfl] at h
    norm_num at h

/-- C4 amended: the intake phase replaces the viewport wholesale on every
resize event, recomputing it from the new physical size and the queried
scale factor; a scale-factor-change event leaves the tracked viewport
unchanged. -/
theorem viewport_replacement (sf sf2 : ℚ) (s : LoopState) (ns nis : ℕ × ℕ) :
    (intakeState sf s (.Resized ns)).viewport = Viewport.with_physical_size ns sf ∧
    (intakeState sf s (.ScaleFactorChanged sf2 nis)).viewport = s.viewport := by
  constructor <;> rw [intakeState, enqueueTranslated_eq] <;> simp [trackInput]

/-- C5: feeding a batch of platform events through the intake phase
enqueues exactly the translated events, in arrival order (`batchTranslate`
is the in-order translation of the batch, threading modifier updates);
at most one abstract event arises per platform event; and the following
`MainEventsCleared` drains that whole queue through a single `update`
call (requesting one redraw) when it is non-empty, leaving the queue
empty — never split across two drains. -/
theorem queue_drain_order (sf : ℚ) (s : LoopState) (events : List Winit.WindowEvent)
    (hq : s.queue = []) :
    (intakeAll sf s events).queue = batchTranslate sf s.modifiers events ∧
    (batchTranslate sf s.modifiers events).length ≤ events.length ∧
    (batchTranslate sf s.modifiers events ≠ [] →
      loopStep sf (intakeAll sf s events) .MainEventsCleared =
        ({ intakeAll sf s events with queue := [] },
          [.updateCalled (batchTranslate sf s.modifiers events)
            (intakeAll sf s events).viewport.logical_size
            (cursor_position (intakeAll sf s events).cursorPosition
              (intakeAll sf s events).viewport.scaleFactor),
            .redrawRequested])) ∧
    (batchTranslate sf s.modifiers events = [] →
      loopStep sf (intakeAll sf s events) .MainEventsCleared =
        (intakeAll sf s events, [])) := by
  have hq' : (intakeAll sf s events).queue = batchTranslate sf s.modifiers events := by
    rw [intakeAll_queue, hq, List.nil_append]
  refine ⟨hq', batchTranslate_length sf events s.modifiers, ?_, ?_⟩
  · intro hne
    simp [loopStep, hq', hne]
  · intro he
    simp [loopStep, hq', he]

theorem queue_drain_order_witness :
    (intakeAll 1 (initialState (800, 600) 1) [.CursorMoved (2, 3)]).queue =
      batchTranslate 1 (initialState (800, 600) 1).modifiers [.CursorMoved (2, 3)] :=
  (queue_drain_order 1 (initialState (800, 600) 1) [.CursorMoved (2, 3)] rfl).1

/-- C6: on `MainEventsCleared` with an empty queue, the state is
unchanged and no effect occurs (no `update` call, no redraw request);
and whenever a redraw request is emitted by that arm, the queue was
non-empty and the redraw is preceded by exactly one `update` call that
drains it. -/
theorem empty_queue_skip (sf : ℚ) (s : LoopState) :
    (s.queue = [] → loopStep sf s .MainEventsCleared = (s, [])) ∧
    (Effect.redrawRequested ∈ (loopStep sf s .MainEventsCleared).2 →
      s.queue ≠ [] ∧
      (loopStep sf s .MainEventsCleared).2 =
        [.updateCalled s.queue s.viewport.logical_size
          (cursor_position s.cursorPosition s.viewport.scaleFactor),
          .redrawRequested]) := by
  constructor
  · intro h
    simp [loopStep, h]
  · intro h
    cases hs : s.queue with
    | nil => simp [loopStep, hs] at h
    | cons a l =>
      constructor
      · simp [hs]
      · simp [loopStep, hs]

theorem empty_queue_skip_witness :
    loopStep 1 (initialState (800, 600) 1) .MainEventsCleared =
      (initialState (800, 600) 1, []) :=
  (empty_queue_skip 1 (initialState (800, 600) 1)).1 rfl

/-- C7: a resize event during intake produces no effect (no buffer
reallocation) and only records the new size and the dirty flag; for any
batch containing at least one resize followed by a single render phase,
the run emits exactly one buffer reallocation, at the current physical
size, and the dirty flag ends cleared with the backing buffer at that
size. -/
theorem resize_dirty_flag_realloc (sf : ℚ) (s : LoopState) (ns : ℕ × ℕ)
    (events : List Winit.WindowEvent)
    (hmem : Winit.WindowEvent.Resized ns ∈ events) :
    (loopStep sf s (.WindowEvent (.Resized ns))).2 = [] ∧
    (loopStep sf s (.WindowEvent (.Resized ns))).1.pixbufSize = s.pixbufSize ∧
    (loopStep sf s (.WindowEvent (.Resized ns))).1.resized = true ∧
    (loopRun sf s (events.map .WindowEvent ++ [.RedrawRequested])).2.filter
        Effect.isRealloc =
      [.buffersReallocated (intakeAll sf s events).size] ∧
    (loopRun sf s (events.map .WindowEvent ++ [.RedrawRequested])).1.resized = false ∧
    (loopRun sf s (events.map .WindowEvent ++ [.RedrawRequested])).1.pixbufSize =
      (intakeAll sf s events).size := by
  have hres : (intakeAll sf s events).resized = true :=
    intakeAll_resized_of_mem sf events ns s hmem
  have hrun : loopRun sf s (events.map .WindowEvent ++ [.RedrawRequested]) =
      (({ intakeAll sf s events with
            pixbufSize := (intakeAll sf s events).size, resized := false }),
        [.buffersReallocated (intakeAll sf s events).size]) := by
    rw [loopRun_append, loopRun_windowEvents, loopRun_singleton]
    simp [loopStep, hres]
  refine ⟨rfl, intakeState_pixbufSize sf s _, ?_, ?_, ?_, ?_⟩
  · rw [show (loopStep sf s (.WindowEvent (.Resized ns))).1 =
      intakeState sf s (.Resized ns) from rfl, intakeState_resized]
  · rw [hrun]
    rfl
  · rw [hrun]
  · rw [hrun]

theorem resize_dirty_flag_realloc_witness :
    (loopRun 1 (initialState (800, 600) 1)
        ([Winit.WindowEvent.Resized (400, 300)].map .WindowEvent ++
          [.RedrawRequested])).2.filter Effect.isRealloc =
      [.buffersReallocated
        (intakeAll 1 (initialState (800, 600) 1) [.Resized (400, 300)]).size] :=
  (resize_dirty_flag_realloc 1 (initialState (800, 600) 1) (400, 300)
    [.Resized (400, 300)] (List.mem_singleton.mpr rfl)).2.2.2.1

/-- C10: the tracked cursor position starts at the sentinel physical
position (-1,-1); the logical cursor handed to the initial application
state is that sentinel divided by the scale factor; the sentinel is
preserved by any intake batch containing no `CursorMoved` event; and any
`update` call drained after such a batch receives the sentinel divided
by the current scale factor. -/
theorem sentinel_cursor (size : ℕ × ℕ) (sf : ℚ) (events : List Winit.WindowEvent)
    (h : ∀ p, Winit.WindowEvent.CursorMoved p ∉ events) :
    (initialState size sf).cursorPosition = (-1, -1) ∧
    initialCursor size sf = (-1 / sf, -1 / sf) ∧
    (intakeAll sf (initialState size sf) events).cursorPosition = (-1, -1) ∧
    (∀ evs ls c,
      Effect.updateCalled evs ls c ∈
        (loopStep sf (intakeAll sf (initialState size sf) events)
          .MainEventsCleared).2 →
      c = (-1 / (intakeAll sf (initialState size sf) events).viewport.scaleFactor,
        -1 / (intakeAll sf (initialState size sf) events).viewport.scaleFactor)) := by
  have hcur : (intakeAll sf (initialState size sf) events).cursorPosition = (-1, -1) :=
    intakeAll_cursorPosition sf events (initialState size sf) h
  refine ⟨rfl, rfl, hcur, ?_⟩
  intro evs ls c hc
  cases hq : (intakeAll sf (initialState size sf) events).queue with
  | nil => simp [loopStep, hq] at hc
  | cons a l =>
    simp only [loopStep, hq, List.isEmpty_cons, Bool.false_eq_true, if_false,
      List.mem_cons, List.mem_singleton, List.not_mem_nil, or_false] at hc
    rcases hc with hc | hc
    · rw [cursor_position, Winit.toLogical, hcur] at hc
      exact (Effect.updateCalled.injEq _ _ _ _ _ _).mp hc |>.2.2
    · exact absurd hc (by simp)

theorem sentinel_cursor_witness :
    initialCursor (800, 600) 2 = (-1 / 2, -1 / 2) ∧
    (intakeAll 2 (initialState (800, 600) 2) [.CursorEntered]).cursorPosition =
      (-1, -1) :=
  ⟨(sentinel_cursor (800, 600) 2 [.CursorEntered] (by intro p; simp)).2.1,
    (sentinel_cursor (800, 600) 2 [.CursorEntered] (by intro p; simp)).2.2.1⟩
